import Mathlib

/-!
Shallow embedding of `jdaviz/core/freezable_state.py` and verification of its
specification claims.

Numbers are modelled as rationals (`ℚ`); the `np.inf` / `-np.inf` sentinels used
by the running min/max accumulations are modelled by the extended type `Ext`.
Nullable attributes (`None` in Python) are `Option`s.  External collaborators
(the spectral-axis unit converter, WCS pixel/world transforms, glue's
`_adjust_limits_aspect` and the base-class `reset_limits`) are function
parameters of the operations that call them.  Observer notifications fired by
the echo callback-property system are modelled as explicit event traces: an
event records the notified attribute name together with the state the observer
sees at the moment it fires; `delay_callback` blocks emit their events at the
final state of the block.
-/

namespace FreezableStateSpec

/-- Extended rationals with `±∞`, modelling the `np.inf` sentinels used by the
running min/max accumulations in `freezable_state.py`. -/
inductive Ext where
  | negInf : Ext
  | fin : ℚ → Ext
  | posInf : Ext
deriving DecidableEq, Repr

def Ext.min : Ext → Ext → Ext
  | .negInf, _ => .negInf
  | _, .negInf => .negInf
  | .posInf, b => b
  | a, .posInf => a
  | .fin a, .fin b => .fin (Min.min a b)

def Ext.max : Ext → Ext → Ext
  | .posInf, _ => .posInf
  | _, .posInf => .posInf
  | .negInf, b => b
  | a, .negInf => a
  | .fin a, .fin b => .fin (Max.max a b)

/-- `np.isfinite`. -/
def Ext.isFinite : Ext → Bool
  | .fin _ => true
  | _ => false

/-- `np.nanmin` on a nonempty list (our model carries no NaNs; `np.nanmin`
raises on an empty input, which never occurs on the modelled paths — the
`[]` case is a junk value). -/
def nanmin : List ℚ → ℚ
  | [] => 0
  | x :: xs => xs.foldl Min.min x

/-- `np.nanmax` on a nonempty list (see `nanmin`). -/
def nanmax : List ℚ → ℚ
  | [] => 0
  | x :: xs => xs.foldl Max.max x

/-! ## `FreezableState.__setattr__` (the frozen-attribute guard) -/

/-- A state object as seen by `FreezableState.__setattr__`: a class-level list
of frozen attribute names and a nullable value for every attribute name.
Attribute values are drawn from an arbitrary type `α`. -/
structure FrozenObj (α : Type) where
  frozen_state : List String
  attrs : String → Option α

/-- Plain `super().__setattr__(k, v)`: unconditionally store `v` under `k`. -/
def FrozenObj.rawSet (o : FrozenObj α) (k : String) (v : Option α) : FrozenObj α :=
  { o with attrs := fun k2 => if k2 = k then v else o.attrs k2 }

/-- `FreezableState.__setattr__` (freezable_state.py lines 21-26).
`k.front` models `k[0]` (Python raises on an empty name; attribute names are
never empty). -/
def FrozenObj.setattr (o : FrozenObj α) (k : String) (v : Option α) : FrozenObj α :=
  if k.front = '_' ∨ k ∉ o.frozen_state then
    o.rawSet k v
  else
    match o.attrs k with
    | none =>
      -- still allow Nones to be updated to initial values
      o.rawSet k v
    | some _ => o

/-! ## Profile viewer state (`FreezableProfileViewerState`) -/

deriving instance DecidableEq for Except

/-- A layer of a profile viewer.  `profile` models the `layer.profile` access:
`Except.error` is an extraction failure (`except Exception`), `Except.ok none`
is `profile is None`, and `Except.ok (some (x, y))` the extracted arrays. -/
structure ProfLayer where
  visible : Bool
  profile : Except Unit (Option (List ℚ × List ℚ))
deriving DecidableEq

/-- The attributes of `FreezableProfileViewerState` used by the modelled
operations.  `reference_data` and `x_att_pixel` matter only through their
nullability. -/
structure ProfState where
  x_min : Option ℚ
  x_max : Option ℚ
  reference_data : Option Unit
  x_att_pixel : Option Unit
  layers : List ProfLayer
deriving DecidableEq

/-- An observer notification: the attribute name and the state the observer
sees when the callback fires. -/
abbrev PEvent := String × ProfState

/-- One step of the accumulation loop of `_reset_x_limits` (lines 41-51):
skip layers whose profile extraction raises, skip `None` profiles and empty
x-arrays, otherwise fold `nanmin`/`nanmax` of the x-array into the running
bounds.  Note: the loop runs over *all* layers; there is no visibility check. -/
def reset_x_step (acc : Ext × Ext) (layer : ProfLayer) : Ext × Ext :=
  match layer.profile with
  | .error _ => acc
  | .ok none => acc
  | .ok (some (x, _y)) =>
    if x.length > 0 then
      (Ext.min acc.1 (.fin (nanmin x)), Ext.max acc.2 (.fin (nanmax x)))
    else
      acc

/-- `FreezableProfileViewerState._reset_x_limits` (lines 32-58).  Returns the
new state and the observer notifications it emits; the two limit writes sit in
a `delay_callback(self, 'x_min', 'x_max')` block, so each changed attribute is
notified once, at the final state of the block. -/
def reset_x_limits (s : ProfState) : ProfState × List PEvent :=
  if s.reference_data = none ∨ s.x_att_pixel = none then
    (s, [])
  else
    match s.layers.foldl reset_x_step (.posInf, .negInf) with
    | (.fin a, .fin b) =>
      let s1 := { s with x_min := some a, x_max := some b }
      (s1, (if s.x_min ≠ some a then [("x_min", s1)] else [])
            ++ (if s.x_max ≠ some b then [("x_max", s1)] else []))
    | _ =>
      -- `if not np.all(np.isfinite([x_min, x_max])): return`
      (s, [])

/-- `FreezableProfileViewerState._convert_units_x_limits` (lines 60-75).
`conv` is the external `spectral_axis_conversion` collaborator (values, old
unit, new unit).  The two limit writes on lines 74-75 are plain sequential
assignments — there is no `delay_callback` here — so each fires its observers
immediately, before the next write happens. -/
def convert_units_x_limits (conv : List ℚ → String → String → List ℚ)
    (old_unit new_unit : Option String) (s : ProfState) : ProfState × List PEvent :=
  if s.x_min = none ∨ s.x_max = none then
    (s, [])
  else if old_unit = none ∨ new_unit = none then
    reset_x_limits s
  else
    let xLimsNew := conv [s.x_min.getD 0, s.x_max.getD 0]
        (old_unit.getD "") (new_unit.getD "")
    let newMin := nanmin xLimsNew
    let newMax := nanmax xLimsNew
    let s1 := { s with x_min := some newMin }
    let ev1 := if s.x_min ≠ some newMin then [("x_min", s1)] else []
    let s2 := { s1 with x_max := some newMax }
    let ev2 := if s1.x_max ≠ some newMax then [("x_max", s2)] else []
    (s2, ev1 ++ ev2)

/-! ## Image viewer state (`FreezableBqplotImageViewerState`) -/

/-- The reference data of an image viewer; only the presence of its coordinate
transform (`reference_data.coords is not None`) matters to the modelled code. -/
structure RefData where
  hasCoords : Bool
deriving DecidableEq

/-- A layer of an image viewer, carrying what `_get_reset_limits` reads from
it.  `shapeX`/`shapeY` are `data.shape[pixel_id_x.axis]` and
`data.shape[pixel_id_y.axis]`.  The corner fields are outputs of the external
WCS collaborators, meaningful only when `hasCoords`: `raBl`/`decBl` and
`raTr`/`decTr` are the world coordinates of the layer's `(0, 0)` and
`(shape-1, shape-1)` pixel corners, and `pixXbl`/`pixYbl`/`pixXtr`/`pixYtr`
those same world corners reprojected into the reference layer's pixel frame
(`reference_data.coords.world_to_pixel`). -/
structure ImgLayer where
  visible : Bool
  ndim : ℕ
  shapeX : ℕ
  shapeY : ℕ
  hasCoords : Bool
  raBl : ℚ
  decBl : ℚ
  raTr : ℚ
  decTr : ℚ
  pixXbl : ℚ
  pixYbl : ℚ
  pixXtr : ℚ
  pixYtr : ℚ
deriving DecidableEq

/-- The attributes of `FreezableBqplotImageViewerState` used by the modelled
operations.  `viewer_attached` models `hasattr(self, '_viewer')` /
`getattr(self, '_viewer', None) is not None`; `viewer_config_imviz` models
`self._viewer.jdaviz_app.config == 'imviz'` for the attached viewer. -/
structure ImageState where
  x_min : Option ℚ
  x_max : Option ℚ
  y_min : Option ℚ
  y_max : Option ℚ
  zoom_radius : ℚ
  zoom_center_x : ℚ
  zoom_center_y : ℚ
  _during_zoom_sync : Bool
  viewer_attached : Bool
  linked_by_wcs : Bool
  viewer_config_imviz : Bool
  reference_data : Option RefData
  layers : List ImgLayer
deriving DecidableEq

/-- An observer notification on the image state. -/
abbrev IEvent := String × ImageState

/-- The `during_zoom_sync` context manager (lines 135-143) run around a body
that may raise (`some e` = an exception escaping the body, carrying the state
at the moment it was raised, since Python mutations persist past the raise).
The guard flag is set on entry and cleared on both exit paths; an exception is
re-raised after the flag is cleared. -/
def during_zoom_sync_run (body : ImageState → ImageState × Option ε)
    (s : ImageState) : ImageState × Option ε :=
  let s1 := { s with _during_zoom_sync := true }
  match body s1 with
  | (s2, some e) => ({ s2 with _during_zoom_sync := false }, some e)
  | (s2, none) => ({ s2 with _during_zoom_sync := false }, none)

/-- `FreezableBqplotImageViewerState._set_zoom_radius_center` (lines 145-172),
exception-aware.  `w2p` is the external `ref_wcs.world_to_pixel_values`
collaborator, applied pointwise; `adjust` is the external
`_adjust_limits_aspect` step, reading and rewriting the four limits (it never
touches the zoom fields) and possibly raising.  The four limit writes inside
the guard scope are plain sequential assignments; the registered `_set_axes_lim`
callback they fire is suppressed by `_during_zoom_sync` (see the callback-firing
model below). -/
def set_zoom_radius_centerE (w2p : ℚ → ℚ → ℚ × ℚ)
    (adjust : ℚ → ℚ → ℚ → ℚ → Except ε (ℚ × ℚ × ℚ × ℚ))
    (s : ImageState) : ImageState × Option ε :=
  if s._during_zoom_sync ∨ ¬ s.viewer_attached then (s, none)
  else
    let cc :=
      if s.linked_by_wcs then
        let c := w2p s.zoom_center_x s.zoom_center_y
        let cR := w2p (s.zoom_center_x + |s.zoom_radius|) s.zoom_center_y
        (c.1, c.2, |cR.1 - c.1|)
      else
        (s.zoom_center_x, s.zoom_center_y, |s.zoom_radius|)
    during_zoom_sync_run (fun s1 =>
      let x0 := cc.1 - cc.2.2
      let x1 := cc.1 + cc.2.2
      let y0 := cc.2.1 - cc.2.2
      let y1 := cc.2.1 + cc.2.2
      let s2 := { s1 with x_min := some x0, x_max := some x1,
                          y_min := some y0, y_max := some y1 }
      match adjust x0 x1 y0 y1 with
      | .ok t => ({ s2 with x_min := some t.1, x_max := some t.2.1,
                            y_min := some t.2.2.1, y_max := some t.2.2.2 }, none)
      | .error e => (s2, some e)) s

/-- `_set_zoom_radius_center` with an infallible aspect-adjustment step. -/
def set_zoom_radius_center (w2p : ℚ → ℚ → ℚ × ℚ)
    (adjust : ℚ → ℚ → ℚ → ℚ → ℚ × ℚ × ℚ × ℚ) (s : ImageState) : ImageState :=
  (set_zoom_radius_centerE w2p
    (fun a b c d => (Except.ok (adjust a b c d) : Except Unit _)) s).1

/-- `FreezableBqplotImageViewerState._set_axes_lim` (lines 180-202).  `p2w` is
the external `ref_wcs.pixel_to_world_values` collaborator, applied pointwise to
the `(x_min, y_min)` and `(x_max, y_max)` pairs.  The three zoom writes inside
the guard scope fire the registered `_set_zoom_radius_center` callback, which
the guard suppresses (see the callback-firing model below). -/
def set_axes_lim (p2w : ℚ → ℚ → ℚ × ℚ) (s : ImageState) : ImageState :=
  if s._during_zoom_sync ∨ ¬ s.viewer_attached then s
  else if s.x_min = none ∨ s.x_max = none ∨ s.y_min = none ∨ s.y_max = none then s
  else
    let xm := s.x_min.getD 0
    let xM := s.x_max.getD 0
    let ym := s.y_min.getD 0
    let yM := s.y_max.getD 0
    let L :=
      if s.linked_by_wcs then
        let lo := p2w xm ym
        let hi := p2w xM yM
        (lo.1, hi.1, lo.2, hi.2)
      else
        (xm, xM, ym, yM)
    let s1 := { s with _during_zoom_sync := true }
    let s2 := { s1 with
      zoom_radius := |(1/2 : ℚ) * Min.min (L.2.1 - L.1) (L.2.2.2 - L.2.2.1)|,
      zoom_center_x := (1/2 : ℚ) * (L.2.1 + L.1),
      zoom_center_y := (1/2 : ℚ) * (L.2.2.2 + L.2.2.1) }
    { s2 with _during_zoom_sync := false }

/-- `reference_data is not None and reference_data.coords is not None`. -/
def refCoordsPresent (s : ImageState) : Bool :=
  match s.reference_data with
  | some r => r.hasCoords
  | none => false

/-- One step of the WCS loop of `_get_reset_limits` (lines 210-245): skip
invisible layers and layers without a coordinate transform; otherwise fold the
layer's corners into the running bounds (world ra/dec when `return_as_world`,
else reference-frame pixel corners with a half-pixel outward pad) and record
that at least one layer succeeded. -/
def wcs_reset_step (raw : Bool) (acc : Ext × Ext × Ext × Ext × Bool)
    (layer : ImgLayer) : Ext × Ext × Ext × Ext × Bool :=
  if ¬ layer.visible then acc
  else if ¬ layer.hasCoords then acc
  else
    let xm := acc.1
    let xM := acc.2.1
    let ym := acc.2.2.1
    let yM := acc.2.2.2.1
    if raw then
      (Ext.min xm (.fin layer.raBl), Ext.max xM (.fin layer.raTr),
       Ext.min ym (.fin layer.decBl), Ext.max yM (.fin layer.decTr), true)
    else
      let xPixMin := Min.min layer.pixXbl layer.pixXtr
      let xPixMax := Max.max layer.pixXbl layer.pixXtr
      let yPixMin := Min.min layer.pixYbl layer.pixYtr
      let yPixMax := Max.max layer.pixYbl layer.pixYtr
      (Ext.min xm (.fin (xPixMin - 1/2)), Ext.max xM (.fin (xPixMax + 1/2)),
       Ext.min ym (.fin (yPixMin - 1/2)), Ext.max yM (.fin (yPixMax + 1/2)), true)

/-- One step of the pixel-shape fallback loop of `_get_reset_limits`
(lines 250-258): skip invisible and 1-D layers; otherwise extend the upper
bounds to `shape - 0.5` along each pixel axis. -/
def pixel_reset_step (acc : Ext × Ext × Ext × Ext) (layer : ImgLayer) :
    Ext × Ext × Ext × Ext :=
  if ¬ layer.visible ∨ layer.ndim = 1 then acc
  else
    (acc.1, Ext.max acc.2.1 (.fin ((layer.shapeX : ℚ) - 1/2)),
     acc.2.2.1, Ext.max acc.2.2.2 (.fin ((layer.shapeY : ℚ) - 1/2)))

/-- `FreezableBqplotImageViewerState._get_reset_limits` (lines 204-260).
`raw` is `return_as_world`.  When the WCS loop set no bound (`wcs_success`
false) or was not entered at all, the pixel-shape fallback runs with
`x_min = y_min = -0.5` and upper bounds starting at `-np.inf`. -/
def get_reset_limits (s : ImageState) (raw : Bool) : Ext × Ext × Ext × Ext :=
  let wcsRes :=
    if s.linked_by_wcs ∧ refCoordsPresent s then
      s.layers.foldl (wcs_reset_step raw) (.posInf, .negInf, .posInf, .negInf, false)
    else
      (.posInf, .negInf, .posInf, .negInf, false)
  if wcsRes.2.2.2.2 then
    (wcsRes.1, wcsRes.2.1, wcsRes.2.2.1, wcsRes.2.2.2.1)
  else
    s.layers.foldl pixel_reset_step (.fin (-(1/2)), .negInf, .fin (-(1/2)), .negInf)

/-- The notifications emitted when a
`delay_callback(self, 'x_min', 'x_max', 'y_min', 'y_max')` block around a
transition from `s0` to `s1` exits: one per limit attribute whose value
changed over the block, each firing at the final state. -/
def limit_events (s0 s1 : ImageState) : List IEvent :=
  (if s0.x_min ≠ s1.x_min then [("x_min", s1)] else [])
    ++ (if s0.x_max ≠ s1.x_max then [("x_max", s1)] else [])
    ++ (if s0.y_min ≠ s1.y_min then [("y_min", s1)] else [])
    ++ (if s0.y_max ≠ s1.y_max then [("y_max", s1)] else [])

/-- `FreezableBqplotImageViewerState.reset_limits` (lines 262-280).
`superReset` is the external base-class `reset_limits` (its own notifications
are outside this model, hence the empty trace on that path); `adjust` is the
external `_adjust_limits_aspect` step, run inside the `delay_callback` block
on the freshly assigned limits. -/
def reset_limits (superReset : ImageState → ImageState)
    (adjust : ℚ → ℚ → ℚ → ℚ → ℚ × ℚ × ℚ × ℚ) (s : ImageState) :
    ImageState × List IEvent :=
  if s.viewer_attached ∧ ¬ s.viewer_config_imviz then (superReset s, [])
  else if s.reference_data = none then (s, [])
  else
    match get_reset_limits s false with
    | (.fin x0, .fin x1, .fin y0, .fin y1) =>
      let s1 := { s with x_min := some x0, x_max := some x1,
                          y_min := some y0, y_max := some y1 }
      let t := adjust x0 x1 y0 y1
      let s2 := { s1 with x_min := some t.1, x_max := some t.2.1,
                          y_min := some t.2.2.1, y_max := some t.2.2.2 }
      (s2, limit_events s s2)
    | _ =>
      -- `if np.any(~np.isfinite([x_min, x_max, y_min, y_max])): return`
      (s, [])

/-! ## Callback-firing model of the limit ↔ zoom synchronization

`__init__` (lines 121-129) registers `_set_zoom_radius_center` on the three
zoom attributes and `_set_axes_lim` on the four limit attributes.  The model
below makes those firings explicit: every write to a limit attribute inside
`_set_zoom_radius_center` (including the writes performed by the external
`_adjust_limits_aspect` step) invokes `_set_axes_lim` on the resulting state,
and every zoom write inside `_set_axes_lim` invokes `_set_zoom_radius_center`.
(The echo callback properties fire only when the value actually changes;
firing on every write is a conservative over-approximation.)  The mutual
recursion is indexed by fuel; the re-entrancy theorem shows the result does
not depend on the fuel, i.e. the cascade is cut off by the guard after one
cross-update. -/

/-- The external collaborators of the two sync handlers. -/
structure SyncCtx where
  w2p : ℚ → ℚ → ℚ × ℚ
  p2w : ℚ → ℚ → ℚ × ℚ
  adjust : ℚ → ℚ → ℚ → ℚ → ℚ × ℚ × ℚ × ℚ

mutual

/-- `_set_zoom_radius_center` with explicit callback firings on its limit
writes (fuel-indexed). -/
def set_zoom_radius_center_cb (ctx : SyncCtx) : ℕ → ImageState → ImageState
  | 0, s => s
  | fuel + 1, s =>
    if s._during_zoom_sync ∨ ¬ s.viewer_attached then s
    else
      let cc :=
        if s.linked_by_wcs then
          let c := ctx.w2p s.zoom_center_x s.zoom_center_y
          let cR := ctx.w2p (s.zoom_center_x + |s.zoom_radius|) s.zoom_center_y
          (c.1, c.2, |cR.1 - c.1|)
        else
          (s.zoom_center_x, s.zoom_center_y, |s.zoom_radius|)
      let s1 := { s with _during_zoom_sync := true }
      let s2 := set_axes_lim_cb ctx fuel { s1 with x_min := some (cc.1 - cc.2.2) }
      let s3 := set_axes_lim_cb ctx fuel { s2 with x_max := some (cc.1 + cc.2.2) }
      let s4 := set_axes_lim_cb ctx fuel { s3 with y_min := some (cc.2.1 - cc.2.2) }
      let s5 := set_axes_lim_cb ctx fuel { s4 with y_max := some (cc.2.1 + cc.2.2) }
      let t := ctx.adjust (s5.x_min.getD 0) (s5.x_max.getD 0)
          (s5.y_min.getD 0) (s5.y_max.getD 0)
      let s6 := set_axes_lim_cb ctx fuel { s5 with x_min := some t.1 }
      let s7 := set_axes_lim_cb ctx fuel { s6 with x_max := some t.2.1 }
      let s8 := set_axes_lim_cb ctx fuel { s7 with y_min := some t.2.2.1 }
      let s9 := set_axes_lim_cb ctx fuel { s8 with y_max := some t.2.2.2 }
      { s9 with _during_zoom_sync := false }

/-- `_set_axes_lim` with explicit callback firings on its zoom writes
(fuel-indexed). -/
def set_axes_lim_cb (ctx : SyncCtx) : ℕ → ImageState → ImageState
  | 0, s => s
  | fuel + 1, s =>
    if s._during_zoom_sync ∨ ¬ s.viewer_attached then s
    else if s.x_min = none ∨ s.x_max = none ∨ s.y_min = none ∨ s.y_max = none then s
    else
      let xm := s.x_min.getD 0
      let xM := s.x_max.getD 0
      let ym := s.y_min.getD 0
      let yM := s.y_max.getD 0
      let L :=
        if s.linked_by_wcs then
          let lo := ctx.p2w xm ym
          let hi := ctx.p2w xM yM
          (lo.1, hi.1, lo.2, hi.2)
        else
          (xm, xM, ym, yM)
      let s1 := { s with _during_zoom_sync := true }
      let s2 := set_zoom_radius_center_cb ctx fuel { s1 with
        zoom_radius := |(1/2 : ℚ) * Min.min (L.2.1 - L.1) (L.2.2.2 - L.2.2.1)| }
      let s3 := set_zoom_radius_center_cb ctx fuel { s2 with
        zoom_center_x := (1/2 : ℚ) * (L.2.1 + L.1) }
      let s4 := set_zoom_radius_center_cb ctx fuel { s3 with
        zoom_center_y := (1/2 : ℚ) * (L.2.2.2 + L.2.2.1) }
      { s4 with _during_zoom_sync := false }

end

/-! ## Concrete instances used by witnesses and counterexamples -/

/-- Identity pixel/world transform (a trivial WCS collaborator). -/
def p2w_id : ℚ → ℚ → ℚ × ℚ := fun x y => (x, y)

/-- An aspect-adjustment step that keeps the limits unchanged. -/
def adjust_id : ℚ → ℚ → ℚ → ℚ → ℚ × ℚ × ℚ × ℚ := fun a b c d => (a, b, c, d)

/-- An aspect-adjustment step that always raises. -/
def adjust_fail : ℚ → ℚ → ℚ → ℚ → Except ℕ (ℚ × ℚ × ℚ × ℚ) := fun _ _ _ _ => .error 7

/-- A concrete unit conversion doubling every value. -/
def conv_double : List ℚ → String → String → List ℚ := fun xs _ _ => xs.map (fun q => 2 * q)

/-- An attached, non-WCS-linked image state with limits `[0,10] × [0,4]`. -/
def img_ex : ImageState :=
  { x_min := some 0, x_max := some 10, y_min := some 0, y_max := some 4,
    zoom_radius := 1, zoom_center_x := 0, zoom_center_y := 0,
    _during_zoom_sync := false, viewer_attached := true, linked_by_wcs := false,
    viewer_config_imviz := true, reference_data := none, layers := [] }

/-- `img_ex` caught inside a sync (guard flag raised). -/
def img_guard_ex : ImageState := { img_ex with _during_zoom_sync := true }

/-- Reference data whose coordinate transform is absent. -/
def ref_plain : RefData := { hasCoords := false }

/-- `img_ex` with reference data but no layers: the pixel fallback of
`_get_reset_limits` leaves its upper bounds at `-np.inf`. -/
def img_empty_ref_ex : ImageState := { img_ex with reference_data := some ref_plain }

/-- Trivial external collaborators for the callback-firing model. -/
def ctx_id : SyncCtx :=
  { w2p := fun x y => (x, y), p2w := fun x y => (x, y),
    adjust := fun a b c d => (a, b, c, d) }

/-- A visible profile layer with x-values `[1, 2]`. -/
def prof_layer_12 : ProfLayer := { visible := true, profile := .ok (some ([1, 2], [0, 0])) }

/-- An *invisible* profile layer with x-value `[100]`. -/
def prof_layer_100 : ProfLayer := { visible := false, profile := .ok (some ([100], [0])) }

/-- A visible profile layer with x-values `[0, 10]`. -/
def prof_layer_0_10 : ProfLayer := { visible := true, profile := .ok (some ([0, 10], [0, 0])) }

/-- A profile state with concrete limits `[1, 2]` and no layers. -/
def prof_seq_ex : ProfState :=
  { x_min := some 1, x_max := some 2, reference_data := some (), x_att_pixel := some (),
    layers := [] }

/-- A profile state whose `x_min` is still null but which has reference data
and a layer to reset from. -/
def prof_null_min_ex : ProfState :=
  { x_min := none, x_max := some 5, reference_data := some (), x_att_pixel := some (),
    layers := [prof_layer_12] }

/-- A profile state mixing an invisible layer (x-values up to 100) with a
visible one (x-values up to 10). -/
def prof_mixed_vis_ex : ProfState :=
  { x_min := none, x_max := none, reference_data := some (), x_att_pixel := some (),
    layers := [prof_layer_100, prof_layer_0_10] }

/-- The x-arrays contributing to `_reset_x_limits`: for each layer (in order),
its profile x-array when extraction succeeds, the profile is non-`None` and the
array is nonempty. -/
def profile_xs (layers : List ProfLayer) : List ℚ :=
  (layers.filterMap (fun L =>
    match L.profile with
    | .ok (some (x, _y)) => if x.length > 0 then some x else none
    | _ => none)).flatten

/-- The layers eligible for the pixel-shape fallback of `_get_reset_limits`:
visible and not 1-D. -/
def eligible_pixel_layers (layers : List ImgLayer) : List ImgLayer :=
  layers.filter (fun L => L.visible && L.ndim != 1)

/-- The running minimum of a list of rationals, starting from the `+∞`
sentinel: `+∞` on the empty list, else its finite minimum. -/
def list_min_ext (xs : List ℚ) : Ext :=
  xs.foldl (fun m q => Ext.min m (.fin q)) .posInf

/-- The running maximum of a list of rationals, starting from the `-∞`
sentinel: `-∞` on the empty list, else its finite maximum. -/
def list_max_ext (xs : List ℚ) : Ext :=
  xs.foldl (fun m q => Ext.max m (.fin q)) .negInf

/-! ## Theorems -/

/-- Claim C1: for every state object with a class-level frozen set and every
attribute name `k` (nonempty, as Python identifiers are) and value `v`,
assignment through `FreezableState.__setattr__` behaves as the if/elif cascade
of the source: if `k` begins with an underscore or is not in the frozen set the
attribute is set to `v`; otherwise, if its current value is null it is set to
`v`; otherwise the assignment leaves the object entirely unchanged and raises
no error (the operation is total). -/
theorem C1_frozen_write_guard {α : Type} (o : FrozenObj α) (k : String) (v : Option α)
    (_hk : k ≠ "") :
    ((k.front = '_' ∨ k ∉ o.frozen_state) → (o.setattr k v).attrs k = v)
    ∧ (¬ (k.front = '_' ∨ k ∉ o.frozen_state) → o.attrs k = none →
        (o.setattr k v).attrs k = v)
    ∧ (¬ (k.front = '_' ∨ k ∉ o.frozen_state) → ∀ w, o.attrs k = some w →
        o.setattr k v = o) := by
  refine ⟨?_, ?_, ?_⟩
  · intro h
    simp [FrozenObj.setattr, FrozenObj.rawSet, h]
  · intro h hnone
    simp [FrozenObj.setattr, FrozenObj.rawSet, h, hnone]
  · intro h w hw
    simp [FrozenObj.setattr, h, hw]

/-- Witness for C1: a frozen attribute `"x_min"` holding `1` rejects the
assignment of `5`. -/
theorem C1_frozen_write_guard_witness :
    ("x_min" : String) ≠ ""
    ∧ (FrozenObj.setattr
        { frozen_state := ["x_min"],
          attrs := fun k => if k = "x_min" then some (1 : ℕ) else none }
        "x_min" (some 5))
      = { frozen_state := ["x_min"],
          attrs := fun k => if k = "x_min" then some (1 : ℕ) else none } :=
  ⟨by decide,
   (C1_frozen_write_guard
      { frozen_state := ["x_min"],
        attrs := fun k => if k = "x_min" then some (1 : ℕ) else none }
      "x_min" (some 5) (by decide)).2.2 (by decide) 1 (by simp)⟩

/-- Claim C2: on the attached, non-WCS-linked image state with
`x_min = 0, x_max = 10, y_min = 0, y_max = 4`, `_set_axes_lim` yields
`zoom_center_x = 5`, `zoom_center_y = 2`, `zoom_radius = 2` (half the smaller
axis span); from the resulting state, `_set_zoom_radius_center` (with a
trivial aspect adjustment) yields `x_min = 3, x_max = 7, y_min = 0, y_max = 4`
(center ± radius on each axis). -/
theorem C2_zoom_limit_round_trip :
    (set_axes_lim p2w_id img_ex).zoom_center_x = 5
    ∧ (set_axes_lim p2w_id img_ex).zoom_center_y = 2
    ∧ (set_axes_lim p2w_id img_ex).zoom_radius = 2
    ∧ (set_zoom_radius_center p2w_id adjust_id (set_axes_lim p2w_id img_ex)).x_min = some 3
    ∧ (set_zoom_radius_center p2w_id adjust_id (set_axes_lim p2w_id img_ex)).x_max = some 7
    ∧ (set_zoom_radius_center p2w_id adjust_id (set_axes_lim p2w_id img_ex)).y_min = some 0
    ∧ (set_zoom_radius_center p2w_id adjust_id (set_axes_lim p2w_id img_ex)).y_max = some 4 := by
  refine ⟨?_, ?_, ?_, ?_, ?_, ?_, ?_⟩ <;>
    simp [set_axes_lim, set_zoom_radius_center, set_zoom_radius_centerE,
      during_zoom_sync_run, img_ex, p2w_id, adjust_id] <;>
    norm_num

/-- Counterexample to claim C3 as stated: with a null `x_min`,
`_convert_units_x_limits(None, U)` is a no-op (the null-limit early return on
line 64 fires first), while `_reset_x_limits()` recomputes the limits from the
layer — the two operations are not extensionally equal when a limit is null. -/
theorem C3_counterexample :
    (convert_units_x_limits conv_double none (some "u") prof_null_min_ex).1.x_min = none
    ∧ (reset_x_limits prof_null_min_ex).1.x_min = some 1
    ∧ (convert_units_x_limits conv_double none (some "u") prof_null_min_ex).1.x_min
        ≠ (reset_x_limits prof_null_min_ex).1.x_min := by
  refine ⟨?_, ?_, ?_⟩ <;>
    simp [convert_units_x_limits, reset_x_limits, reset_x_step, conv_double,
      prof_null_min_ex, prof_layer_12, nanmin, nanmax, Ext.min, Ext.max]

/-- Claim C3 (amended: provided `x_min` and `x_max` are both non-null — the
null-limit early return on line 64 precedes the unit check): calling
`_convert_units_x_limits` with a null old unit and a non-null new unit produces
exactly the same resulting state (and notifications) as calling
`_reset_x_limits` directly. -/
theorem C3_convert_null_old_unit (conv : List ℚ → String → String → List ℚ)
    (u : String) (s : ProfState) (a b : ℚ)
    (hmin : s.x_min = some a) (hmax : s.x_max = some b) :
    convert_units_x_limits conv none (some u) s = reset_x_limits s := by
  simp [convert_units_x_limits, hmin, hmax]

/-- Witness for C3 (amended), at a state with `x_min = 1`, `x_max = 2`. -/
theorem C3_convert_null_old_unit_witness :
    prof_seq_ex.x_min = some 1 ∧ prof_seq_ex.x_max = some 2
    ∧ convert_units_x_limits conv_double none (some "u") prof_seq_ex
        = reset_x_limits prof_seq_ex :=
  ⟨rfl, rfl, C3_convert_null_old_unit conv_double "u" prof_seq_ex 1 2 rfl rfl⟩

/-- Claim C5: if the aspect-ratio adjustment step inside
`_set_zoom_radius_center` raises, the `_during_zoom_sync` guard flag is false
after the call returns and the original exception is re-raised to the caller
(the `during_zoom_sync` context manager clears the flag on its exception path
and re-raises). -/
theorem C5_guard_cleared_on_raise {ε : Type} (w2p : ℚ → ℚ → ℚ × ℚ)
    (adjust : ℚ → ℚ → ℚ → ℚ → Except ε (ℚ × ℚ × ℚ × ℚ)) (e : ε) (s : ImageState)
    (hadj : ∀ a b c d, adjust a b c d = Except.error e)
    (hsync : s._during_zoom_sync = false) (hview : s.viewer_attached = true) :
    (set_zoom_radius_centerE w2p adjust s).1._during_zoom_sync = false
    ∧ (set_zoom_radius_centerE w2p adjust s).2 = some e := by
  constructor <;>
    simp [set_zoom_radius_centerE, during_zoom_sync_run, hadj, hsync, hview]

/-- Witness for C5: a raising adjustment step on `img_ex` leaves the guard
cleared and surfaces the error. -/
theorem C5_guard_cleared_on_raise_witness :
    (∀ a b c d, adjust_fail a b c d = Except.error 7)
    ∧ img_ex._during_zoom_sync = false
    ∧ img_ex.viewer_attached = true
    ∧ (set_zoom_radius_centerE p2w_id adjust_fail img_ex).1._during_zoom_sync = false
    ∧ (set_zoom_radius_centerE p2w_id adjust_fail img_ex).2 = some 7 := by
  have h := C5_guard_cleared_on_raise p2w_id adjust_fail 7 img_ex
    (fun a b c d => rfl) rfl rfl
  exact ⟨fun a b c d => rfl, rfl, rfl, h.1, h.2⟩

/-- Claim C10: for an attached, non-WCS-linked image state not currently inside
a sync, `_set_zoom_radius_center` computes the limits from the absolute value
of `zoom_radius`: the resulting four limits are identical whether
`zoom_radius` is `r` or `-r`, while the `zoom_radius` attribute itself retains
the sign it was assigned (the handler never writes it). -/
theorem C10_zoom_radius_sign (w2p : ℚ → ℚ → ℚ × ℚ)
    (adjust : ℚ → ℚ → ℚ → ℚ → ℚ × ℚ × ℚ × ℚ) (s : ImageState) (r : ℚ)
    (hsync : s._during_zoom_sync = false) (hview : s.viewer_attached = true)
    (hwcs : s.linked_by_wcs = false) :
    ((set_zoom_radius_center w2p adjust { s with zoom_radius := r }).x_min
        = (set_zoom_radius_center w2p adjust { s with zoom_radius := -r }).x_min)
    ∧ ((set_zoom_radius_center w2p adjust { s with zoom_radius := r }).x_max
        = (set_zoom_radius_center w2p adjust { s with zoom_radius := -r }).x_max)
    ∧ ((set_zoom_radius_center w2p adjust { s with zoom_radius := r }).y_min
        = (set_zoom_radius_center w2p adjust { s with zoom_radius := -r }).y_min)
    ∧ ((set_zoom_radius_center w2p adjust { s with zoom_radius := r }).y_max
        = (set_zoom_radius_center w2p adjust { s with zoom_radius := -r }).y_max)
    ∧ (set_zoom_radius_center w2p adjust { s with zoom_radius := r }).zoom_radius = r
    ∧ (set_zoom_radius_center w2p adjust { s with zoom_radius := -r }).zoom_radius = -r := by
  refine ⟨?_, ?_, ?_, ?_, ?_, ?_⟩ <;>
    simp [set_zoom_radius_center, set_zoom_radius_centerE, during_zoom_sync_run,
      hsync, hview, hwcs, abs_neg]

/-- Witness for C10, at `img_ex` with radius `±2`. -/
theorem C10_zoom_radius_sign_witness :
    img_ex._during_zoom_sync = false ∧ img_ex.viewer_attached = true
    ∧ img_ex.linked_by_wcs = false
    ∧ ((set_zoom_radius_center p2w_id adjust_id { img_ex with zoom_radius := 2 }).x_min
        = (set_zoom_radius_center p2w_id adjust_id { img_ex with zoom_radius := -2 }).x_min) :=
  ⟨rfl, rfl, rfl,
   (C10_zoom_radius_sign p2w_id adjust_id img_ex 2 rfl rfl rfl).1⟩

/-! ### Accumulation lemmas for `_reset_x_limits` -/

theorem Ext.min_posInf_left (a : Ext) : Ext.min .posInf a = a := by
  cases a <;> rfl

theorem Ext.min_posInf_right (a : Ext) : Ext.min a .posInf = a := by
  cases a <;> rfl

theorem Ext.max_negInf_left (a : Ext) : Ext.max .negInf a = a := by
  cases a <;> rfl

theorem Ext.max_negInf_right (a : Ext) : Ext.max a .negInf = a := by
  cases a <;> rfl

theorem Ext.min_assoc (a b c : Ext) :
    Ext.min (Ext.min a b) c = Ext.min a (Ext.min b c) := by
  cases a <;> cases b <;> cases c <;> simp [Ext.min, min_assoc, inf_assoc]

theorem Ext.max_assoc (a b c : Ext) :
    Ext.max (Ext.max a b) c = Ext.max a (Ext.max b c) := by
  cases a <;> cases b <;> cases c <;> simp [Ext.max, max_assoc, sup_assoc]

/-- Folding the running minimum from an arbitrary start splits off the start. -/
theorem ext_foldl_min_init (P : List ℚ) (c : Ext) :
    P.foldl (fun m q => Ext.min m (.fin q)) c = Ext.min c (list_min_ext P) := by
  induction P generalizing c with
  | nil => simp [list_min_ext, Ext.min_posInf_right]
  | cons p pt ih =>
    simp only [list_min_ext, List.foldl_cons] at ih ⊢
    rw [ih (Ext.min c (.fin p)), ih (Ext.min .posInf (.fin p)),
      Ext.min_posInf_left, Ext.min_assoc]

/-- Folding the running maximum from an arbitrary start splits off the start. -/
theorem ext_foldl_max_init (P : List ℚ) (c : Ext) :
    P.foldl (fun m q => Ext.max m (.fin q)) c = Ext.max c (list_max_ext P) := by
  induction P generalizing c with
  | nil => simp [list_max_ext, Ext.max_negInf_right]
  | cons p pt ih =>
    simp only [list_max_ext, List.foldl_cons] at ih ⊢
    rw [ih (Ext.max c (.fin p)), ih (Ext.max .negInf (.fin p)),
      Ext.max_negInf_left, Ext.max_assoc]

theorem list_min_ext_append (xs ys : List ℚ) :
    list_min_ext (xs ++ ys) = Ext.min (list_min_ext xs) (list_min_ext ys) := by
  simp only [list_min_ext, List.foldl_append]
  exact ext_foldl_min_init ys _

theorem list_max_ext_append (xs ys : List ℚ) :
    list_max_ext (xs ++ ys) = Ext.max (list_max_ext xs) (list_max_ext ys) := by
  simp only [list_max_ext, List.foldl_append]
  exact ext_foldl_max_init ys _

/-- On a nonempty list, the running minimum is the finite `nanmin`. -/
theorem list_min_ext_eq_nanmin (x : ℚ) (xs : List ℚ) :
    list_min_ext (x :: xs) = .fin (nanmin (x :: xs)) := by
  induction xs generalizing x with
  | nil => rfl
  | cons y ys ih =>
    have h := ih (Min.min x y)
    simp only [list_min_ext, List.foldl_cons, nanmin] at h ⊢
    simpa [Ext.min] using h

/-- On a nonempty list, the running maximum is the finite `nanmax`. -/
theorem list_max_ext_eq_nanmax (x : ℚ) (xs : List ℚ) :
    list_max_ext (x :: xs) = .fin (nanmax (x :: xs)) := by
  induction xs generalizing x with
  | nil => rfl
  | cons y ys ih =>
    have h := ih (Max.max x y)
    simp only [list_max_ext, List.foldl_cons, nanmax] at h ⊢
    simpa [Ext.max] using h

/-- The accumulation loop of `_reset_x_limits` computes the running
minimum/maximum over the concatenation of all contributing profile x-arrays
(in loop order). -/
theorem reset_x_fold (layers : List ProfLayer) (a b : Ext) :
    layers.foldl reset_x_step (a, b) =
      (Ext.min a (list_min_ext (profile_xs layers)),
       Ext.max b (list_max_ext (profile_xs layers))) := by
  induction layers generalizing a b with
  | nil =>
    simp [profile_xs, list_min_ext, list_max_ext,
      Ext.min_posInf_right, Ext.max_negInf_right]
  | cons L ls ih =>
    simp only [List.foldl_cons]
    rcases hL : L.profile with e | p
    · simp only [reset_x_step, hL, ih, profile_xs, List.filterMap_cons, hL]
    · rcases p with _ | ⟨x, y⟩
      · simp only [reset_x_step, hL, ih, profile_xs, List.filterMap_cons, hL]
      · rcases hx : x with _ | ⟨x0, xt⟩
        · simp [reset_x_step, hL, hx, ih, profile_xs, List.filterMap_cons]
        · simp only [reset_x_step, hL, hx, List.length_cons, ih, profile_xs,
            List.filterMap_cons, List.flatten_cons, if_pos (Nat.succ_pos xt.length),
            list_min_ext_append, list_max_ext_append]
          rw [list_min_ext_eq_nanmin, list_max_ext_eq_nanmax,
            Ext.min_assoc, Ext.max_assoc]

/-- Counterexample to claim C4 as stated: `_reset_x_limits` iterates over
*all* layers (lines 41-51 have no visibility check), not only the visible
ones.  On a state with an invisible layer holding x-value 100 and a visible
layer holding x-values up to 10, the claim predicts `x_max = 10` but the code
sets `x_max = 100`. -/
theorem C4_counterexample :
    nanmax (profile_xs (prof_mixed_vis_ex.layers.filter (fun L => L.visible))) = 10
    ∧ (reset_x_limits prof_mixed_vis_ex).1.x_max = some 100
    ∧ (reset_x_limits prof_mixed_vis_ex).1.x_max
        ≠ some (nanmax (profile_xs (prof_mixed_vis_ex.layers.filter (fun L => L.visible)))) := by
  refine ⟨?_, ?_, ?_⟩ <;>
    simp [reset_x_limits, reset_x_step, profile_xs, nanmax, nanmin,
      prof_mixed_vis_ex, prof_layer_100, prof_layer_0_10, Ext.min, Ext.max] <;>
    norm_num

/-- Claim C4 (amended: the loop runs over *all* layers, not only visible
ones): for every profile-viewer state with non-null reference data and a
configured pixel x-attribute, `_reset_x_limits` sets `x_min`/`x_max` to the
minimum and maximum over all layers' profile x-values, skipping any layer
whose profile extraction raises (the failure is never propagated — prepending
a raising layer leaves the computed limits unchanged), and if no finite
bounds result the whole state is left unchanged. -/
theorem C4_reset_x_all_layers (s : ProfState) (href : s.reference_data ≠ none)
    (hatt : s.x_att_pixel ≠ none) :
    (profile_xs s.layers ≠ [] →
       (reset_x_limits s).1.x_min = some (nanmin (profile_xs s.layers))
       ∧ (reset_x_limits s).1.x_max = some (nanmax (profile_xs s.layers)))
    ∧ (profile_xs s.layers = [] → reset_x_limits s = (s, []))
    ∧ (∀ E : ProfLayer, E.profile = Except.error () →
        (reset_x_limits { s with layers := E :: s.layers }).1.x_min
            = (reset_x_limits s).1.x_min
        ∧ (reset_x_limits { s with layers := E :: s.layers }).1.x_max
            = (reset_x_limits s).1.x_max) := by
  have hguard : ¬ (s.reference_data = none ∨ s.x_att_pixel = none) :=
    not_or.mpr ⟨href, hatt⟩
  have hfold := reset_x_fold s.layers .posInf .negInf
  rw [Ext.min_posInf_left, Ext.max_negInf_left] at hfold
  refine ⟨?_, ?_, ?_⟩
  · intro hne
    obtain ⟨x, xs, hx⟩ := List.exists_cons_of_ne_nil hne
    rw [hx, list_min_ext_eq_nanmin, list_max_ext_eq_nanmax] at hfold
    rw [hx]
    constructor <;> simp [reset_x_limits, hguard, hfold]
  · intro hnil
    rw [hnil] at hfold
    simp [reset_x_limits, hguard, hfold, list_min_ext, list_max_ext]
  · intro E hE
    have hstep : reset_x_step (Ext.posInf, Ext.negInf) E = (Ext.posInf, Ext.negInf) := by
      simp [reset_x_step, hE]
    rcases hf : s.layers.foldl reset_x_step (.posInf, .negInf) with ⟨e1, e2⟩
    cases e1 <;> cases e2 <;>
      constructor <;>
        simp [reset_x_limits, hguard, List.foldl_cons, hstep, hf]

/-- Witness for C4 (amended): on `prof_null_min_ex` the computed minimum over
all layers' x-values is taken. -/
theorem C4_reset_x_all_layers_witness :
    prof_null_min_ex.reference_data ≠ none
    ∧ prof_null_min_ex.x_att_pixel ≠ none
    ∧ profile_xs prof_null_min_ex.layers ≠ []
    ∧ (reset_x_limits prof_null_min_ex).1.x_min
        = some (nanmin (profile_xs prof_null_min_ex.layers)) := by
  have h := (C4_reset_x_all_layers prof_null_min_ex (by simp [prof_null_min_ex])
      (by simp [prof_null_min_ex])).1
      (by simp [profile_xs, prof_null_min_ex, prof_layer_12])
  exact ⟨by simp [prof_null_min_ex], by simp [prof_null_min_ex],
    by simp [profile_xs, prof_null_min_ex, prof_layer_12], h.1⟩

/-! ### Re-entrancy of the limit ↔ zoom callback cycle -/

/-- While the guard flag is up, the callback-firing `_set_axes_lim` returns
its state unchanged, whatever fuel it has. -/
theorem sal_cb_guard (ctx : SyncCtx) (n : ℕ) (s : ImageState)
    (h : s._during_zoom_sync = true) : set_axes_lim_cb ctx n s = s := by
  cases n with
  | zero => rfl
  | succ n => simp [set_axes_lim_cb, h]

/-- While the guard flag is up, the callback-firing `_set_zoom_radius_center`
returns its state unchanged, whatever fuel it has. -/
theorem szrc_cb_guard (ctx : SyncCtx) (n : ℕ) (s : ImageState)
    (h : s._during_zoom_sync = true) : set_zoom_radius_center_cb ctx n s = s := by
  cases n with
  | zero => rfl
  | succ n => simp [set_zoom_radius_center_cb, h]

/-- The callback-firing `_set_zoom_radius_center` is fuel-independent: all its
nested handler invocations happen under the raised guard and return
immediately. -/
theorem szrc_cb_fuel (ctx : SyncCtx) (n : ℕ) (s : ImageState) :
    set_zoom_radius_center_cb ctx (n + 1) s = set_zoom_radius_center_cb ctx 1 s := by
  cases hd : s._during_zoom_sync <;> cases hv : s.viewer_attached <;>
    simp [set_zoom_radius_center_cb, hd, hv, sal_cb_guard]

/-- The callback-firing `_set_axes_lim` is fuel-independent: all its nested
handler invocations happen under the raised guard and return immediately. -/
theorem sal_cb_fuel (ctx : SyncCtx) (n : ℕ) (s : ImageState) :
    set_axes_lim_cb ctx (n + 1) s = set_axes_lim_cb ctx 1 s := by
  cases hd : s._during_zoom_sync <;> cases hv : s.viewer_attached <;>
    simp [set_axes_lim_cb, hd, hv, szrc_cb_guard]

/-- Claim C6: invoking `_set_zoom_radius_center` never causes `_set_axes_lim`
to re-invoke `_set_zoom_radius_center`: while `_during_zoom_sync` is true both
handlers return immediately without mutating any state, and the callback
cascade is fuel-independent — it settles after the single cross-update, with
no unbounded mutual recursion. -/
theorem C6_reentrancy_guard (ctx : SyncCtx) (s : ImageState) (n : ℕ) :
    (s._during_zoom_sync = true →
       set_zoom_radius_center_cb ctx n s = s ∧ set_axes_lim_cb ctx n s = s)
    ∧ set_zoom_radius_center_cb ctx (n + 1) s = set_zoom_radius_center_cb ctx 1 s
    ∧ set_axes_lim_cb ctx (n + 1) s = set_axes_lim_cb ctx 1 s :=
  ⟨fun h => ⟨szrc_cb_guard ctx n s h, sal_cb_guard ctx n s h⟩,
   szrc_cb_fuel ctx n s, sal_cb_fuel ctx n s⟩

/-- Witness for C6: on a guard-raised state the handler is the identity, and
on `img_ex` extra fuel changes nothing. -/
theorem C6_reentrancy_guard_witness :
    img_guard_ex._during_zoom_sync = true
    ∧ set_zoom_radius_center_cb ctx_id 5 img_guard_ex = img_guard_ex
    ∧ set_zoom_radius_center_cb ctx_id 4 img_ex = set_zoom_radius_center_cb ctx_id 1 img_ex :=
  ⟨rfl, ((C6_reentrancy_guard ctx_id img_guard_ex 5).1 rfl).1,
   (C6_reentrancy_guard ctx_id img_ex 3).2.1⟩

/-! ### `reset_limits` and `_get_reset_limits` -/

/-- Claim C7: on an image state with non-null reference data, in the
Imviz-style configuration, `reset_limits` leaves all four limits unchanged
whenever any of the four bounds computed by `_get_reset_limits` is non-finite,
and otherwise assigns all four from the computed values (with the external
aspect adjustment applied to them inside the same batch). -/
theorem C7_reset_limits_nonfinite_guard (superR : ImageState → ImageState)
    (adjust : ℚ → ℚ → ℚ → ℚ → ℚ × ℚ × ℚ × ℚ) (s : ImageState)
    (hcfg : s.viewer_attached = false ∨ s.viewer_config_imviz = true)
    (href : s.reference_data ≠ none) :
    (((get_reset_limits s false).1.isFinite = false
        ∨ (get_reset_limits s false).2.1.isFinite = false
        ∨ (get_reset_limits s false).2.2.1.isFinite = false
        ∨ (get_reset_limits s false).2.2.2.isFinite = false) →
       (reset_limits superR adjust s).1 = s)
    ∧ (∀ a b c d, get_reset_limits s false = (.fin a, .fin b, .fin c, .fin d) →
       (reset_limits superR adjust s).1 =
         { s with x_min := some (adjust a b c d).1, x_max := some (adjust a b c d).2.1,
                  y_min := some (adjust a b c d).2.2.1, y_max := some (adjust a b c d).2.2.2 }) := by
  constructor
  · intro hnf
    rcases hr : get_reset_limits s false with ⟨e1, e2, e3, e4⟩
    rw [hr] at hnf
    rcases hcfg with hcf | hcf <;>
      cases e1 <;> cases e2 <;> cases e3 <;> cases e4 <;>
        simp_all [reset_limits, Ext.isFinite]
  · intro a b c d hr
    rcases hcfg with hcf | hcf <;> simp [reset_limits, hr, hcf, href]

/-- Witness for C7: `img_empty_ref_ex` has reference data but no layers, its
computed `x_max` bound is `-∞`, and `reset_limits` leaves it unchanged. -/
theorem C7_reset_limits_nonfinite_guard_witness :
    (img_empty_ref_ex.viewer_attached = false ∨ img_empty_ref_ex.viewer_config_imviz = true)
    ∧ img_empty_ref_ex.reference_data ≠ none
    ∧ (get_reset_limits img_empty_ref_ex false).2.1.isFinite = false
    ∧ (reset_limits (fun t => t) adjust_id img_empty_ref_ex).1 = img_empty_ref_ex := by
  refine ⟨Or.inr rfl, by simp [img_empty_ref_ex, img_ex], by rfl, ?_⟩
  exact (C7_reset_limits_nonfinite_guard (fun t => t) adjust_id img_empty_ref_ex
    (Or.inr rfl) (by simp [img_empty_ref_ex, img_ex])).1 (Or.inr (Or.inl (by rfl)))

/-- If no visible layer has a coordinate transform, the WCS loop of
`_get_reset_limits` leaves its accumulator (including the `wcs_success` flag)
untouched. -/
theorem wcs_fold_no_success (raw : Bool) (layers : List ImgLayer) (a b c d : Ext)
    (h : ∀ L ∈ layers, L.visible = true → L.hasCoords = false) :
    layers.foldl (wcs_reset_step raw) (a, b, c, d, false) = (a, b, c, d, false) := by
  induction layers with
  | nil => rfl
  | cons L ls ih =>
    have hL := h L (List.mem_cons_self L ls)
    have hstep : wcs_reset_step raw (a, b, c, d, false) L = (a, b, c, d, false) := by
      cases hv : L.visible
      · simp [wcs_reset_step, hv]
      · simp [wcs_reset_step, hv, hL hv]
    rw [List.foldl_cons, hstep]
    exact ih (fun L2 hm => h L2 (List.mem_cons_of_mem L hm))

/-- The pixel-shape fallback loop of `_get_reset_limits` keeps the lower
bounds and folds the running maximum of `shape - 0.5` over exactly the
visible, non-1-D layers. -/
theorem pixel_fold (layers : List ImgLayer) (acc : Ext × Ext × Ext × Ext) :
    layers.foldl pixel_reset_step acc =
      (acc.1,
       (eligible_pixel_layers layers).foldl
         (fun m L => Ext.max m (.fin ((L.shapeX : ℚ) - 1/2))) acc.2.1,
       acc.2.2.1,
       (eligible_pixel_layers layers).foldl
         (fun m L => Ext.max m (.fin ((L.shapeY : ℚ) - 1/2))) acc.2.2.2) := by
  induction layers generalizing acc with
  | nil => rfl
  | cons L ls ih =>
    rw [List.foldl_cons]
    by_cases hb : (L.visible && L.ndim != 1) = true
    · obtain ⟨hv, hn⟩ : L.visible = true ∧ L.ndim ≠ 1 := by
        simpa [bne_iff_ne] using hb
      have hfil : eligible_pixel_layers (L :: ls) = L :: eligible_pixel_layers ls := by
        simp [eligible_pixel_layers, List.filter_cons, hb]
      have hstep : pixel_reset_step acc L =
          (acc.1, Ext.max acc.2.1 (.fin ((L.shapeX : ℚ) - 1/2)),
           acc.2.2.1, Ext.max acc.2.2.2 (.fin ((L.shapeY : ℚ) - 1/2))) := by
        simp [pixel_reset_step, hv, hn]
      rw [hstep, ih, hfil]
      simp
    · have hfil : eligible_pixel_layers (L :: ls) = eligible_pixel_layers ls := by
        simp [eligible_pixel_layers, List.filter_cons, hb]
      have hcond : ¬ L.visible = true ∨ L.ndim = 1 := by
        rcases not_and_or.mp (by simpa [bne_iff_ne] using hb :
            ¬ (L.visible = true ∧ L.ndim ≠ 1)) with h | h
        · exact Or.inl h
        · exact Or.inr (not_not.mp h)
      have hstep : pixel_reset_step acc L = acc := by
        rcases hcond with h | h <;> simp [pixel_reset_step, h]
      rw [hstep, ih, hfil]

/-- Claim C8: when the WCS-based computation does not apply (`linked_by_wcs`
false, no reference coordinate transform, or no visible layer with a
coordinate transform), `_get_reset_limits` returns `x_min = y_min = -0.5` and
`x_max`/`y_max` equal to the running maximum, started from `-∞`, of
`shape - 0.5` over the visible non-1-D layers — so an empty eligible-layer set
yields non-finite upper bounds. -/
theorem C8_pixel_fallback (s : ImageState) (raw : Bool)
    (h : s.linked_by_wcs = false ∨ refCoordsPresent s = false
         ∨ ∀ L ∈ s.layers, L.visible = true → L.hasCoords = false) :
    get_reset_limits s raw =
      (.fin (-(1/2)),
       (eligible_pixel_layers s.layers).foldl
         (fun m L => Ext.max m (.fin ((L.shapeX : ℚ) - 1/2))) .negInf,
       .fin (-(1/2)),
       (eligible_pixel_layers s.layers).foldl
         (fun m L => Ext.max m (.fin ((L.shapeY : ℚ) - 1/2))) .negInf)
    ∧ (eligible_pixel_layers s.layers = [] →
        (get_reset_limits s raw).2.1.isFinite = false
        ∧ (get_reset_limits s raw).2.2.2.isFinite = false) := by
  have hwcs : (if s.linked_by_wcs ∧ refCoordsPresent s then
        s.layers.foldl (wcs_reset_step raw) (.posInf, .negInf, .posInf, .negInf, false)
      else (.posInf, .negInf, .posInf, .negInf, false))
      = ((.posInf : Ext), (.negInf : Ext), (.posInf : Ext), (.negInf : Ext), false) := by
    rcases h with h | h | h
    · simp [h]
    · simp [h]
    · by_cases hc : s.linked_by_wcs ∧ refCoordsPresent s
      · rw [if_pos hc]
        exact wcs_fold_no_success raw s.layers _ _ _ _ h
      · rw [if_neg hc]
  have hmain : get_reset_limits s raw =
      (.fin (-(1/2)),
       (eligible_pixel_layers s.layers).foldl
         (fun m L => Ext.max m (.fin ((L.shapeX : ℚ) - 1/2))) .negInf,
       .fin (-(1/2)),
       (eligible_pixel_layers s.layers).foldl
         (fun m L => Ext.max m (.fin ((L.shapeY : ℚ) - 1/2))) .negInf) := by
    unfold get_reset_limits
    rw [hwcs]
    simpa using pixel_fold s.layers (.fin (-(1/2)), .negInf, .fin (-(1/2)), .negInf)
  refine ⟨hmain, ?_⟩
  intro he
  rw [hmain, he]
  exact ⟨rfl, rfl⟩

/-- Witness for C8: on `img_empty_ref_ex` (not WCS-linked, no layers) the
fallback returns `(-0.5, -∞, -0.5, -∞)`. -/
theorem C8_pixel_fallback_witness :
    img_empty_ref_ex.linked_by_wcs = false
    ∧ get_reset_limits img_empty_ref_ex false
        = (.fin (-(1/2)), .negInf, .fin (-(1/2)), .negInf) := by
  refine ⟨rfl, ?_⟩
  rw [(C8_pixel_fallback img_empty_ref_ex false (Or.inl rfl)).1]
  simp [eligible_pixel_layers, img_empty_ref_ex, img_ex]

/-! ### Atomicity of batched limit updates -/

/-- Membership in a conditional singleton list pins down the element. -/
theorem mem_ite_single {β : Type} {c : Prop} [Decidable c] {x y : β}
    (h : x ∈ (if c then [y] else [])) : x = y := by
  split at h
  · simpa using h
  · simp at h

/-- Every notification of a four-limit `delay_callback` block fires at the
final state of the block. -/
theorem mem_limit_events {s0 s1 : ImageState} {ev : IEvent}
    (h : ev ∈ limit_events s0 s1) : ev.2 = s1 := by
  unfold limit_events at h
  rcases List.mem_append.mp h with h | h
  · rcases List.mem_append.mp h with h | h
    · rcases List.mem_append.mp h with h | h
      · simp [mem_ite_single h]
      · simp [mem_ite_single h]
    · simp [mem_ite_single h]
  · simp [mem_ite_single h]

/-- Counterexample to claim C9 as stated: the two limit writes of
`_convert_units_x_limits` (lines 74-75) are *not* wrapped in `delay_callback`.
With a doubling conversion on the state `x_min = 1, x_max = 2`, the `x_min`
notification fires at a state whose `x_min` already holds the new value `2`
while `x_max` still holds the old value `2` — not the final `4` — so an
observer sees the pair partially updated. -/
theorem C9_counterexample :
    (convert_units_x_limits conv_double (some "u1") (some "u2") prof_seq_ex).2 =
      [("x_min", { prof_seq_ex with x_min := some 2 }),
       ("x_max", { prof_seq_ex with x_min := some 2, x_max := some 4 })]
    ∧ (convert_units_x_limits conv_double (some "u1") (some "u2") prof_seq_ex).1.x_max
        = some 4
    ∧ ({ prof_seq_ex with x_min := some 2 } : ProfState).x_max = some 2
    ∧ ({ prof_seq_ex with x_min := some 2 } : ProfState).x_max
        ≠ (convert_units_x_limits conv_double (some "u1") (some "u2") prof_seq_ex).1.x_max := by
  refine ⟨?_, ?_, ?_, ?_⟩ <;>
    simp [convert_units_x_limits, conv_double, prof_seq_ex, nanmin, nanmax] <;>
    norm_num

/-- Claim C9 (amended: the operations that batch through `delay_callback` —
`_reset_x_limits` and the Imviz-style `reset_limits` — update their limit
fields atomically: no observer notification they emit ever fires in a state
where some but not all of the limit fields changed by the operation have been
written.  `_convert_units_x_limits` and `_set_zoom_radius_center`, by
contrast, write their limits as plain sequential assignments, so their
intermediate states are observable — see the counterexample). -/
theorem C9_batched_updates_atomic :
    (∀ s : ProfState, ∀ ev ∈ (reset_x_limits s).2, ev.2 = (reset_x_limits s).1)
    ∧ (∀ (superR : ImageState → ImageState)
        (adjust : ℚ → ℚ → ℚ → ℚ → ℚ × ℚ × ℚ × ℚ) (s : ImageState),
        ∀ ev ∈ (reset_limits superR adjust s).2,
          ev.2 = (reset_limits superR adjust s).1) := by
  constructor
  · intro s ev h
    by_cases hg : s.reference_data = none ∨ s.x_att_pixel = none
    · simp [reset_x_limits, hg] at h
    · rcases hf : s.layers.foldl reset_x_step (.posInf, .negInf) with ⟨e1, e2⟩
      cases e1 <;> cases e2 <;> simp [reset_x_limits, hg, hf] at h ⊢ <;>
        rcases h with ⟨-, rfl⟩ | ⟨-, rfl⟩ <;> simp
  · intro superR adjust s ev h
    cases hva : s.viewer_attached <;> cases hvc : s.viewer_config_imviz <;>
      by_cases h2 : s.reference_data = none <;>
      rcases hr : get_reset_limits s false with ⟨e1, e2, e3, e4⟩ <;>
      cases e1 <;> cases e2 <;> cases e3 <;> cases e4 <;>
      simp [reset_limits, hva, hvc, h2, hr] at h ⊢ <;>
      exact mem_limit_events h

/-- Witness for C9 (amended): on `prof_null_min_ex`, `_reset_x_limits` emits
an `x_min` notification, and it fires at the final state. -/
theorem C9_batched_updates_atomic_witness :
    ("x_min",
      ({ prof_null_min_ex with x_min := some 1, x_max := some 2 } : ProfState))
        ∈ (reset_x_limits prof_null_min_ex).2
    ∧ (("x_min",
        ({ prof_null_min_ex with x_min := some 1, x_max := some 2 } : ProfState)) :
          PEvent).2 = (reset_x_limits prof_null_min_ex).1 := by
  have hmem : ("x_min",
      ({ prof_null_min_ex with x_min := some 1, x_max := some 2 } : ProfState))
        ∈ (reset_x_limits prof_null_min_ex).2 := by
    simp [reset_x_limits, reset_x_step, prof_null_min_ex, prof_layer_12,
      nanmin, nanmax, Ext.min, Ext.max]
  exact ⟨hmem, C9_batched_updates_atomic.1 prof_null_min_ex _ hmem⟩

end FreezableStateSpec
